import Mathlib

/-!
Verification of the Fury type identifier scheme (`src/cpp/fury/type/type.h`).

The source defines an `enum class TypeId : int32_t` with 45 enumerators
holding explicit values 1..45, and a pure predicate
`IsNamespacedType(int32_t)` implemented as a `switch` returning `true`
exactly for the seven `NS_*` enumerators and `false` in the `default` case.

The embedding below renders the enumeration as an inductive type together
with a `value` function carrying the explicit numeric discriminants, and
renders the classifier as a function on `Int` (the mathematical image of
the `int32_t` argument; all comparisons in the source are exact equality
against in-range constants, so no wraparound arithmetic occurs).
-/

namespace fury

/-- The `TypeId` enumeration from `src/cpp/fury/type/type.h`, one
constructor per enumerator, in source order. -/
inductive TypeId where
  | BOOL
  | INT8
  | INT16
  | INT32
  | VAR_INT32
  | INT64
  | VAR_INT64
  | SLI_INT64
  | FLOAT16
  | FLOAT32
  | FLOAT64
  | STRING
  | ENUM
  | NS_ENUM
  | STRUCT
  | POLYMORPHIC_STRUCT
  | COMPATIBLE_STRUCT
  | POLYMORPHIC_COMPATIBLE_STRUCT
  | NS_STRUCT
  | NS_POLYMORPHIC_STRUCT
  | NS_COMPATIBLE_STRUCT
  | NS_POLYMORPHIC_COMPATIBLE_STRUCT
  | EXT
  | POLYMORPHIC_EXT
  | NS_EXT
  | NS_POLYMORPHIC_EXT
  | LIST
  | SET
  | MAP
  | DURATION
  | TIMESTAMP
  | LOCAL_DATE
  | DECIMAL
  | BINARY
  | ARRAY
  | BOOL_ARRAY
  | INT8_ARRAY
  | INT16_ARRAY
  | INT32_ARRAY
  | INT64_ARRAY
  | FLOAT16_ARRAY
  | FLOAT32_ARRAY
  | FLOAT64_ARRAY
  | ARROW_RECORD_BATCH
  | ARROW_TABLE
deriving DecidableEq, Fintype, Repr

/-- The explicit numeric discriminant attached to each `TypeId`
enumerator in the source (`BOOL = 1`, ..., `ARROW_TABLE = 45`). The
underlying type in the source is `int32_t`; all values fit easily. -/
def TypeId.value : TypeId → Int
  | .BOOL => 1
  | .INT8 => 2
  | .INT16 => 3
  | .INT32 => 4
  | .VAR_INT32 => 5
  | .INT64 => 6
  | .VAR_INT64 => 7
  | .SLI_INT64 => 8
  | .FLOAT16 => 9
  | .FLOAT32 => 10
  | .FLOAT64 => 11
  | .STRING => 12
  | .ENUM => 13
  | .NS_ENUM => 14
  | .STRUCT => 15
  | .POLYMORPHIC_STRUCT => 16
  | .COMPATIBLE_STRUCT => 17
  | .POLYMORPHIC_COMPATIBLE_STRUCT => 18
  | .NS_STRUCT => 19
  | .NS_POLYMORPHIC_STRUCT => 20
  | .NS_COMPATIBLE_STRUCT => 21
  | .NS_POLYMORPHIC_COMPATIBLE_STRUCT => 22
  | .EXT => 23
  | .POLYMORPHIC_EXT => 24
  | .NS_EXT => 25
  | .NS_POLYMORPHIC_EXT => 26
  | .LIST => 27
  | .SET => 28
  | .MAP => 29
  | .DURATION => 30
  | .TIMESTAMP => 31
  | .LOCAL_DATE => 32
  | .DECIMAL => 33
  | .BINARY => 34
  | .ARRAY => 35
  | .BOOL_ARRAY => 36
  | .INT8_ARRAY => 37
  | .INT16_ARRAY => 38
  | .INT32_ARRAY => 39
  | .INT64_ARRAY => 40
  | .FLOAT16_ARRAY => 41
  | .FLOAT32_ARRAY => 42
  | .FLOAT64_ARRAY => 43
  | .ARROW_RECORD_BATCH => 44
  | .ARROW_TABLE => 45

/-- `IsNamespacedType` from `src/cpp/fury/type/type.h`: the `switch`
matches the argument (cast to `TypeId`, a value-preserving cast since the
underlying type is `int32_t`) against the seven `NS_*` enumerators and
returns `true` for them, `false` in the `default` branch. -/
def IsNamespacedType (type_id : Int) : Bool :=
  if type_id = TypeId.value .NS_ENUM ∨
     type_id = TypeId.value .NS_STRUCT ∨
     type_id = TypeId.value .NS_POLYMORPHIC_STRUCT ∨
     type_id = TypeId.value .NS_COMPATIBLE_STRUCT ∨
     type_id = TypeId.value .NS_POLYMORPHIC_COMPATIBLE_STRUCT ∨
     type_id = TypeId.value .NS_EXT ∨
     type_id = TypeId.value .NS_POLYMORPHIC_EXT
  then true
  else false

/-- Characterisation of the classifier: it answers `true` exactly on the
seven numeric values of the `NS_*` enumerators. -/
lemma isNamespacedType_eq_true_iff (v : Int) :
    IsNamespacedType v = true ↔
      v = 14 ∨ v = 19 ∨ v = 20 ∨ v = 21 ∨ v = 22 ∨ v = 25 ∨ v = 26 := by
  unfold IsNamespacedType
  split <;> simp_all [TypeId.value]

/-- Every enumerator's value lies in the interval `[1, 45]`. -/
lemma typeIdValue_mem_range (t : TypeId) :
    1 ≤ t.value ∧ t.value ≤ 45 := by
  cases t <;> simp [TypeId.value]

end fury

namespace fury

/-- Claim C1: every symbolic tag in the `TypeId` registry carries exactly
its published wire value, `BOOL = 1` through `ARROW_TABLE = 45`. -/
theorem typeId_values_match_published_wire_values :
    TypeId.value .BOOL = 1 ∧ TypeId.value .INT8 = 2 ∧
    TypeId.value .INT16 = 3 ∧ TypeId.value .INT32 = 4 ∧
    TypeId.value .VAR_INT32 = 5 ∧ TypeId.value .INT64 = 6 ∧
    TypeId.value .VAR_INT64 = 7 ∧ TypeId.value .SLI_INT64 = 8 ∧
    TypeId.value .FLOAT16 = 9 ∧ TypeId.value .FLOAT32 = 10 ∧
    TypeId.value .FLOAT64 = 11 ∧ TypeId.value .STRING = 12 ∧
    TypeId.value .ENUM = 13 ∧ TypeId.value .NS_ENUM = 14 ∧
    TypeId.value .STRUCT = 15 ∧ TypeId.value .POLYMORPHIC_STRUCT = 16 ∧
    TypeId.value .COMPATIBLE_STRUCT = 17 ∧
    TypeId.value .POLYMORPHIC_COMPATIBLE_STRUCT = 18 ∧
    TypeId.value .NS_STRUCT = 19 ∧
    TypeId.value .NS_POLYMORPHIC_STRUCT = 20 ∧
    TypeId.value .NS_COMPATIBLE_STRUCT = 21 ∧
    TypeId.value .NS_POLYMORPHIC_COMPATIBLE_STRUCT = 22 ∧
    TypeId.value .EXT = 23 ∧ TypeId.value .POLYMORPHIC_EXT = 24 ∧
    TypeId.value .NS_EXT = 25 ∧ TypeId.value .NS_POLYMORPHIC_EXT = 26 ∧
    TypeId.value .LIST = 27 ∧ TypeId.value .SET = 28 ∧
    TypeId.value .MAP = 29 ∧ TypeId.value .DURATION = 30 ∧
    TypeId.value .TIMESTAMP = 31 ∧ TypeId.value .LOCAL_DATE = 32 ∧
    TypeId.value .DECIMAL = 33 ∧ TypeId.value .BINARY = 34 ∧
    TypeId.value .ARRAY = 35 ∧ TypeId.value .BOOL_ARRAY = 36 ∧
    TypeId.value .INT8_ARRAY = 37 ∧ TypeId.value .INT16_ARRAY = 38 ∧
    TypeId.value .INT32_ARRAY = 39 ∧ TypeId.value .INT64_ARRAY = 40 ∧
    TypeId.value .FLOAT16_ARRAY = 41 ∧ TypeId.value .FLOAT32_ARRAY = 42 ∧
    TypeId.value .FLOAT64_ARRAY = 43 ∧
    TypeId.value .ARROW_RECORD_BATCH = 44 ∧
    TypeId.value .ARROW_TABLE = 45 := by
  decide

/-- Claim C2: on the defined range `[1, 45]`, `IsNamespacedType v` is
`true` exactly when `v` is one of the seven namespaced values
`{14, 19, 20, 21, 22, 25, 26}`, and `false` for every other value in
the range. -/
theorem isNamespacedType_on_defined_range (v : Int)
    (_h : 1 ≤ v ∧ v ≤ 45) :
    IsNamespacedType v = true ↔
      v = 14 ∨ v = 19 ∨ v = 20 ∨ v = 21 ∨ v = 22 ∨ v = 25 ∨ v = 26 := by
  exact isNamespacedType_eq_true_iff v

/-- Witness for C2 at the concrete inputs `14` (namespaced) and `15`
(not namespaced). -/
theorem isNamespacedType_on_defined_range_witness :
    ((1 : Int) ≤ 14 ∧ (14 : Int) ≤ 45) ∧ IsNamespacedType 14 = true ∧
    ((1 : Int) ≤ 15 ∧ (15 : Int) ≤ 45) ∧ IsNamespacedType 15 = false := by
  refine ⟨by decide, ?_, by decide, ?_⟩
  · exact (isNamespacedType_on_defined_range 14 (by decide)).mpr (by decide)
  · have h := isNamespacedType_on_defined_range 15 (by decide)
    simp only [show ¬((15:Int) = 14 ∨ (15:Int) = 19 ∨ (15:Int) = 20 ∨
      (15:Int) = 21 ∨ (15:Int) = 22 ∨ (15:Int) = 25 ∨ (15:Int) = 26)
      from by decide, iff_false] at h
    simpa using h

/-- Claim C3: every integer outside the defined range `[1, 45]` — in
particular `0`, `-1` and `1000` — classifies as non-namespaced:
`IsNamespacedType v = false`, with no error path. -/
theorem isNamespacedType_false_outside_range (v : Int)
    (h : ¬ (1 ≤ v ∧ v ≤ 45)) : IsNamespacedType v = false := by
  rcases Bool.eq_false_or_eq_true (IsNamespacedType v) with hb | hb
  · exfalso
    rcases (isNamespacedType_eq_true_iff v).mp hb with h7 | h7 | h7 | h7 | h7 | h7 | h7 <;>
      (subst h7; exact h (by decide))
  · exact hb

/-- Witness for C3 at the concrete out-of-range inputs `0`, `-1`
and `1000`. -/
theorem isNamespacedType_false_outside_range_witness :
    (¬ ((1 : Int) ≤ 0 ∧ (0 : Int) ≤ 45) ∧ IsNamespacedType 0 = false) ∧
    (¬ ((1 : Int) ≤ -1 ∧ (-1 : Int) ≤ 45) ∧ IsNamespacedType (-1) = false) ∧
    (¬ ((1 : Int) ≤ 1000 ∧ (1000 : Int) ≤ 45) ∧
      IsNamespacedType 1000 = false) :=
  ⟨⟨by decide, isNamespacedType_false_outside_range 0 (by decide)⟩,
   ⟨by decide, isNamespacedType_false_outside_range (-1) (by decide)⟩,
   ⟨by decide, isNamespacedType_false_outside_range 1000 (by decide)⟩⟩

/-- Claim C4: `IsNamespacedType` is a total function on its integer
domain — on every input it yields a boolean (`true` or `false`); there
is no failure path. (Side effects and allocation do not exist for a
Lean function; totality is certified by the definition being accepted
as a terminating `def` and by this exhaustive dichotomy.) -/
theorem isNamespacedType_total (v : Int) :
    IsNamespacedType v = true ∨ IsNamespacedType v = false :=
  Bool.eq_false_or_eq_true (IsNamespacedType v)

/-- Witness for C4 (no propositional hypothesis; concrete instance at
`v = 7`). -/
theorem isNamespacedType_total_witness :
    IsNamespacedType 7 = true ∨ IsNamespacedType 7 = false :=
  isNamespacedType_total 7

/-- Claim C5: the mapping from symbolic tags to integer values is
injective — distinct enumerators receive distinct values. -/
theorem typeId_value_injective (t₁ t₂ : TypeId)
    (h : TypeId.value t₁ = TypeId.value t₂) : t₁ = t₂ := by
  revert h
  revert t₁ t₂
  decide

/-- Witness for C5 at the concrete pair `(MAP, MAP)`. -/
theorem typeId_value_injective_witness :
    TypeId.value .MAP = TypeId.value .MAP ∧ TypeId.MAP = TypeId.MAP :=
  ⟨rfl, typeId_value_injective .MAP .MAP rfl⟩

/-- Claim C6: `IsNamespacedType` is deterministic — two evaluations at
the same input agree (it is a pure function of its argument; the Lean
embedding has no state at all). -/
theorem isNamespacedType_deterministic (v : Int) :
    IsNamespacedType v = IsNamespacedType v := rfl

/-- Claim C7: every enumerator's assigned value is small and strictly
positive: `1 ≤ value t ≤ 45` for all 45 tags. -/
theorem typeId_value_small_positive (t : TypeId) :
    1 ≤ TypeId.value t ∧ TypeId.value t ≤ 45 := by
  revert t
  decide

/-- Witness for C7 (no propositional hypothesis; concrete instance at
`ARROW_TABLE`). -/
theorem typeId_value_small_positive_witness :
    1 ≤ TypeId.value .ARROW_TABLE ∧ TypeId.value .ARROW_TABLE ≤ 45 :=
  typeId_value_small_positive .ARROW_TABLE

/-- Claim C9 (implicit): the defined `TypeId` values form the
contiguous range `[1, 45]` with no gaps — an integer is the value of
some enumerator exactly when `1 ≤ v ≤ 45`. -/
theorem typeId_values_contiguous (v : Int) :
    (∃ t : TypeId, TypeId.value t = v) ↔ 1 ≤ v ∧ v ≤ 45 := by
  constructor
  · rintro ⟨t, rfl⟩
    exact typeIdValue_mem_range t
  · rintro ⟨h1, h2⟩
    interval_cases v <;> decide

/-- Witness for C9 at the concrete value `33` (the `DECIMAL` tag). -/
theorem typeId_values_contiguous_witness :
    ∃ t : TypeId, TypeId.value t = 33 :=
  (typeId_values_contiguous 33).mpr (by decide)

/-- Claim C10 (implicit): the namespaced set is not a contiguous
interval — every `v` in `[15, 18]` and in `[23, 24]` classifies as
non-namespaced even though the bracketing values `14` and `25`
classify as namespaced. -/
theorem namespaced_set_not_contiguous :
    (∀ v : Int, 15 ≤ v ∧ v ≤ 18 → IsNamespacedType v = false) ∧
    (∀ v : Int, 23 ≤ v ∧ v ≤ 24 → IsNamespacedType v = false) ∧
    IsNamespacedType 14 = true ∧ IsNamespacedType 25 = true := by
  refine ⟨?_, ?_, by decide, by decide⟩ <;>
    (rintro v ⟨h1, h2⟩; interval_cases v <;> decide)

/-- Witness for C10 at the concrete interior points `16` and `23`. -/
theorem namespaced_set_not_contiguous_witness :
    IsNamespacedType 16 = false ∧ IsNamespacedType 23 = false :=
  ⟨namespaced_set_not_contiguous.1 16 (by decide),
   namespaced_set_not_contiguous.2.1 23 (by decide)⟩

end fury
